import Mathlib

/-!
Verification of the app-store-screenshots pipeline (framer, combiner,
splitter).  The geometric and control-flow logic of the three TypeScript
stages is shallowly embedded below.  Pixel dimensions are naturals.
JavaScript number arithmetic is modelled exactly: the source only ever
multiplies pixel counts by the decimal literals 0.2, 0.6, 1.2 (tenths) and
by scale factors given in hundredths, so every intermediate real value is
a fraction with a fixed small denominator and is carried here as an exact
scaled integer; `Math.floor`, `Math.ceil` and `Math.round` become the
corresponding exact integer operations (`Math.round x = ⌊x + 1/2⌋` for all
finite JS numbers).  At every concrete input appearing in a theorem below
the double-precision evaluation agrees with the exact one.
-/

/-- Truthiness of a fallible result: `true` exactly on the `ok` branch,
mirroring a promise that resolved rather than threw. -/
def exceptOk {ε α : Type} : Except ε α → Bool
  | .ok _ => true
  | .error _ => false

/-- JavaScript `Math.round (a / b)` for naturals `a`, `b` with `b > 0`
(round half up): `⌊a/b + 1/2⌋ = (2a + b) / (2b)` in natural division. -/
def jsRoundFrac (a b : ℕ) : ℕ := (2 * a + b) / (2 * b)

/-- JavaScript `Math.round (a / b)` for an integer `a` and positive natural
`b` (round half toward positive infinity, as JS rounds negative halves up):
`⌊a/b + 1/2⌋` via flooring integer division. -/
def jsRoundRat (a : ℤ) (b : ℕ) : ℤ := Int.fdiv (2 * a + b) (2 * b)

/-- JavaScript `Math.ceil (a / b)` for naturals with `b > 0`. -/
def natCeilDiv (a b : ℕ) : ℕ := (a + b - 1) / b

/-! ## Combiner: title loading (`loadTitles` in `02_input_combined/combiner.ts`) -/

/-- One iteration of the title loop of `loadTitles`: the `slot_i` value
when it is truthy (present and non-empty), else the placeholder.  The
lookup argument is the parsed JSON object of the locale's translation
file. -/
def slotTitle (translations : String → Option String) (i : ℕ) : String :=
  match translations ("slot_" ++ toString i) with
  | some v => if v ≠ "" then v else "Screenshot " ++ toString i
  | none => "Screenshot " ++ toString i

/-- Embedding of `loadTitles`: the argument is the outcome of reading and
parsing the locale's translation file — `none` when the file is missing or
unparseable (the `catch` branch returns the four defaults without
throwing), otherwise the four slot titles are collected in order. -/
def loadTitles (parsed : Option (String → Option String)) : List String :=
  match parsed with
  | some translations => (List.range 4).map fun j => slotTitle translations (j + 1)
  | none =>
    ["Screenshot 1", "Screenshot 2", "Screenshot 3", "Screenshot 4"]

/-! ## Combiner: title SVG line layout (`generateTitleSvg`)

Texts are `List Char` so that the character-level splitting of the source
is explicit. -/

/-- XML escaping used by `generateTitleSvg`: `&`, `<`, `>` become
entities; every other character passes through. -/
def escapeXml : List Char → List Char
  | [] => []
  | c :: rest =>
    (if c = '&' then ['&', 'a', 'm', 'p', ';']
     else if c = '<' then ['&', 'l', 't', ';']
     else if c = '>' then ['&', 'g', 't', ';']
     else [c]) ++ escapeXml rest

/-- Splitting on single spaces, exactly as JavaScript `split(' ')`
(consecutive spaces yield empty segments; the result is never empty). -/
def splitSp : List Char → List (List Char)
  | [] => [[]]
  | c :: rest =>
    match splitSp rest with
    | [] => [[]]
    | w :: ws => if c = ' ' then [] :: w :: ws else (c :: w) :: ws

/-- Joining with single spaces, exactly as JavaScript `join(' ')`. -/
def joinSp : List (List Char) → List Char
  | [] => []
  | [w] => w
  | w :: v :: ws => w ++ ' ' :: joinSp (v :: ws)

/-- Splitting on the manual line-break pattern `/\r?\n|\\n/` of
`generateTitleSvg`: a newline (consuming one immediately preceding
carriage return) or a literal backslash-n sequence. -/
def splitBreaks : List Char → List (List Char)
  | '\r' :: '\n' :: rest => [] :: splitBreaks rest
  | '\n' :: rest => [] :: splitBreaks rest
  | '\\' :: 'n' :: rest => [] :: splitBreaks rest
  | c :: rest =>
    match splitBreaks rest with
    | [] => [[]]
    | w :: ws => (c :: w) :: ws
  | [] => [[]]

/-- JavaScript `String.prototype.trim` restricted to the whitespace
characters that can occur here. -/
def trimStr (l : List Char) : List Char :=
  ((l.dropWhile fun c => c = ' ' ∨ c = '\n' ∨ c = '\r' ∨ c = '\t').reverse.dropWhile
    fun c => c = ' ' ∨ c = '\n' ∨ c = '\r' ∨ c = '\t').reverse

/-- The greedy word-packing loop of `generateTitleSvg`: starting from an
empty current line, words are appended (with a separating space once the
line is non-empty) until the test line would exceed `maxChars` while the
current line is non-empty; the returned value is the source's
`breakIndex`. -/
def greedyBreakIndex (maxChars : ℕ) : List (List Char) → List Char → ℕ → ℕ
  | [], _, brk => brk
  | w :: rest, currentLine, i =>
    let testLine := if currentLine = [] then w else currentLine ++ ' ' :: w
    if maxChars < testLine.length ∧ currentLine ≠ [] then i
    else greedyBreakIndex maxChars rest testLine (i + 1)

/-- The word-wrap branch of `generateTitleSvg` (no manual break): the
escaped text is wrapped onto two lines when it exceeds `maxChars`, slicing
the word list at the greedy `breakIndex` only when
`0 < breakIndex < words.length`. -/
def wordWrapLines (escapedText : List Char) (maxChars : ℕ) : List Char × List Char :=
  if maxChars < escapedText.length then
    if 0 < greedyBreakIndex maxChars (splitSp escapedText) [] 0 ∧
        greedyBreakIndex maxChars (splitSp escapedText) [] 0
          < (splitSp escapedText).length then
      (joinSp ((splitSp escapedText).take
          (greedyBreakIndex maxChars (splitSp escapedText) [] 0)),
       joinSp ((splitSp escapedText).drop
          (greedyBreakIndex maxChars (splitSp escapedText) [] 0)))
    else (escapedText, [])
  else (escapedText, [])

/-- The line-splitting logic of `generateTitleSvg`: manual breaks win;
otherwise the escaped text is word-wrapped; a `maxLines = 1` constraint
drops the second line. -/
def generateTitleSvgLines (text : List Char) (maxChars : ℕ) (maxLines : ℕ) :
    List Char × List Char :=
  let manualParts := (splitBreaks text).filter fun w => w ≠ []
  let p : List Char × List Char :=
    match manualParts with
    | m0 :: m1 :: ms =>
      (escapeXml (trimStr m0), escapeXml (trimStr (joinSp (m1 :: ms))))
    | _ => wordWrapLines (escapeXml text) maxChars
  if maxLines = 1 then (p.1, []) else p

/-- The `svgHeight` computed by `generateTitleSvg`:
`ceil (fontSize × 1.2 × renderedLines + 2 × pad)` with
`pad = ceil (fontSize × 0.2) + |shadowOffset|`, where `renderedLines` is 2
exactly when the second line is non-empty. -/
def generateTitleSvgHeight (text : List Char) (fontSize : ℕ) (shadowOffset : ℤ)
    (maxChars : ℕ) (maxLines : ℕ) : ℕ :=
  let lines := generateTitleSvgLines text maxChars maxLines
  let renderedLines := if lines.2 ≠ [] then 2 else 1
  let pad := natCeilDiv (fontSize * 2) 10 + shadowOffset.natAbs
  natCeilDiv (fontSize * 12 * renderedLines + pad * 20) 10

/-- The `maxCharsPerLine` of `generateTitleSvg`:
`floor (width / (fontSize × 0.6)) = floor (10·width / (6·fontSize))`. -/
def maxCharsPerLine (width fontSize : ℕ) : ℕ := 10 * width / (6 * fontSize)

/-! ## Combiner: canvas layout (`calculateCanvasDimensions`) -/

/-- One entry of the `framedImages` array inside `combineScreenshots`:
scaled pixel dimensions plus the original metadata dimensions. -/
structure ImgDims where
  width : ℕ
  height : ℕ
  originalWidth : Option ℕ
  originalHeight : Option ℕ
deriving DecidableEq, Repr

/-- The result record of `calculateCanvasDimensions`. -/
structure CanvasDims where
  canvasWidth : ℕ
  canvasHeight : ℕ
  imageWidth : ℕ
  imageHeight : ℕ
  quarterWidth : ℕ
deriving DecidableEq, Repr

/-- The title-band height computed inside `calculateCanvasDimensions`
(lines 446–448 of the combiner): `lines` is 1 for single-line (iPad)
titles and 2 otherwise, `pad = ceil (fontSize × 0.2) + 1` — the source
adds a constant 1 ("minimal shadow offset if any"), not the actual shadow
offset — and the band is
`ceil (fontSize × 1.2 × lines + 2 × pad) + titleSpacing`. -/
def canvasTitleBand (titleFontSize titleSpacing : ℕ) (singleLineTitles : Bool) : ℕ :=
  let lines : ℕ := if singleLineTitles then 1 else 2
  let pad : ℕ := natCeilDiv (titleFontSize * 2) 10 + 1
  natCeilDiv (titleFontSize * 12 * lines + pad * 20) 10 + titleSpacing

/-- The reference width `framedImages[0].originalWidth || framedImages[0].width`
(a present-but-zero original width is falsy and falls back). -/
def resolvedImageWidth (img : ImgDims) : ℕ :=
  match img.originalWidth with
  | some w => if w = 0 then img.width else w
  | none => img.width

/-- The reference height `framedImages[0].originalHeight || framedImages[0].height`. -/
def resolvedImageHeight (img : ImgDims) : ℕ :=
  match img.originalHeight with
  | some h => if h = 0 then img.height else h
  | none => img.height

/-- Embedding of `calculateCanvasDimensions`: the canvas is the larger of
the background and the computed layout in each dimension, and
`quarterWidth = Math.floor (canvasWidth / framedImages.length)`.  The
`centerInQuarters` flag is accepted but (as in the source) unused;
callers guarantee a non-empty image list, the head default is never
reached there. -/
def calculateCanvasDimensions (framedImages : List ImgDims) (spacing bgWidth bgHeight : ℕ)
    (titleFontSize titleSpacing : ℕ) (centerInQuarters singleLineTitles : Bool) : CanvasDims :=
  let img0 := framedImages.headD ⟨0, 0, none, none⟩
  let imageWidth := resolvedImageWidth img0
  let imageHeight := resolvedImageHeight img0
  let titleHeight := canvasTitleBand titleFontSize titleSpacing singleLineTitles
  let totalWidth := imageWidth * framedImages.length + spacing * (framedImages.length + 1)
  let totalHeight := imageHeight + titleHeight + spacing * 2
  let canvasWidth := max bgWidth totalWidth
  let canvasHeight := max bgHeight totalHeight
  let quarterWidth := canvasWidth / framedImages.length
  let _ := centerInQuarters
  { canvasWidth := canvasWidth, canvasHeight := canvasHeight,
    imageWidth := imageWidth, imageHeight := imageHeight, quarterWidth := quarterWidth }

/-! ## Combiner: compositing plan (`combineScreenshots`) -/

/-- Device type selected by settings or `--device`. -/
inductive DeviceType where
  | iphone
  | ipad
deriving DecidableEq, Repr

/-- The title-band height used by `combineScreenshots` for layer
positioning (lines 313–316): `titleFontSize × (1.2 × linesForSvg) +
titleSpacing`.  The neighbouring `pad` and `lineHeight` locals of the
source do not enter this value.  The result is a JS float with denominator
10, stored here exactly in tenths of a pixel. -/
def positioningTitleBandTenths (titleFontSize titleSpacing : ℕ) (singleLineTitles : Bool) : ℕ :=
  let linesForSvg : ℕ := if singleLineTitles then 1 else 2
  titleFontSize * 12 * linesForSvg + titleSpacing * 10

/-- The title-band height formula asserted by the specification, written
from the spec's words for comparison with the source-derived
`canvasTitleBand`: here `pad = ceil (fontSize × 0.2) + |titleShadowOffset|`. -/
def claimTitleBand (titleFontSize titleSpacing : ℕ) (shadowOffset : ℤ)
    (singleLineTitles : Bool) : ℕ :=
  let lines : ℕ := if singleLineTitles then 1 else 2
  let pad : ℕ := natCeilDiv (titleFontSize * 2) 10 + shadowOffset.natAbs
  natCeilDiv (titleFontSize * 12 * lines + pad * 20) 10 + titleSpacing

/-- Whether the device type renders single-line titles
(`deviceType === 'ipad'`). -/
def singleLineFor : DeviceType → Bool
  | .ipad => true
  | .iphone => false

/-- One `sharp` composite overlay: `top` and `left` in tenths of a pixel
(`top` of an image layer is a JS float; every other coordinate is an
integer, scaled by 10 here for uniformity). -/
structure OverlayOp where
  topTenths : ℤ
  leftTenths : ℤ
deriving DecidableEq, Repr

/-- The layout computed by one `combineScreenshots` invocation: canvas
dimensions plus the title and image overlay positions, in slot order. -/
structure CombinePlan where
  dims : CanvasDims
  titleOps : List OverlayOp
  imageOps : List OverlayOp
deriving DecidableEq, Repr

/-- Title text for slot `index`: `finalTitles[index] || 'Screenshot n'`
(an out-of-range access is `undefined`, and an empty string is falsy;
both fall back to the placeholder). -/
def getTitle (titles : List (List Char)) (index : ℕ) : List Char :=
  match titles.get? index with
  | some t => if t ≠ [] then t else ("Screenshot " ++ toString (index + 1)).toList
  | none => ("Screenshot " ++ toString (index + 1)).toList

/-- Embedding of `combineScreenshots` up to the composite operation list.
Inputs are the metadata of the framed screenshots found for the
(device type, locale) — in slot order, as returned by
`findFramedScreenshots` — the background metadata, and the settings.
Scale factors are given in hundredths (the defaults 0.9 and 0.86 are 90
and 86).  The single hard error is raised when no framed screenshots were
found; otherwise the full plan is produced. -/
def combineScreenshots (metas : List (ℕ × ℕ)) (bgWidth bgHeight : ℕ)
    (spacing : ℕ) (deviceType : DeviceType) (titles : List (List Char))
    (titleFontSize : ℕ) (titleShadowOffset : ℤ) (titleSpacing : ℕ)
    (centerInQuarters : Bool) (iPhoneScaleFactorPct iPadScaleFactorPct : ℕ) :
    Except String CombinePlan :=
  let scaleFactorPct :=
    match deviceType with
    | .ipad => iPadScaleFactorPct
    | .iphone => iPhoneScaleFactorPct
  if metas.length = 0 then
    .error "No framed screenshots found"
  else
    let framedImages : List ImgDims := metas.map fun m =>
      let scaledWidth := if scaleFactorPct ≠ 100 then jsRoundFrac (m.1 * scaleFactorPct) 100 else m.1
      let scaledHeight := if scaleFactorPct ≠ 100 then jsRoundFrac (m.2 * scaleFactorPct) 100 else m.2
      { width := scaledWidth, height := scaledHeight,
        originalWidth := some m.1, originalHeight := some m.2 }
    let singleLineTitles := singleLineFor deviceType
    let d := calculateCanvasDimensions framedImages spacing bgWidth bgHeight
      titleFontSize titleSpacing centerInQuarters singleLineTitles
    let titleBandTenths := positioningTitleBandTenths titleFontSize titleSpacing singleLineTitles
    let maxLines : ℕ := if singleLineTitles then 1 else 2
    let titleOps := (List.range framedImages.length).map fun index =>
      let svgHeight := generateTitleSvgHeight (getTitle titles index) titleFontSize
        titleShadowOffset (maxCharsPerLine d.imageWidth titleFontSize) maxLines
      let leftPosition : ℤ :=
        if centerInQuarters then
          jsRoundRat (2 * index * d.quarterWidth + d.quarterWidth - d.imageWidth) 2
        else index * (d.imageWidth + spacing) + spacing
      { topTenths := 10 * ((spacing : ℤ) +
          max 0 (jsRoundRat ((titleBandTenths : ℤ) - 10 * svgHeight) 20)),
        leftTenths := 10 * leftPosition }
    let imageOps := framedImages.enum.map fun p =>
      let index := p.1
      let framedImage := p.2
      let leftPosition : ℤ :=
        if centerInQuarters then
          jsRoundRat (2 * index * d.quarterWidth + d.quarterWidth - framedImage.width) 2
        else
          let originalWidth := framedImage.originalWidth.getD framedImage.width
          let spaceStart := index * (originalWidth + spacing) + spacing
          jsRoundRat (2 * spaceStart + originalWidth - framedImage.width) 2
      { topTenths := (10 * spacing : ℤ) + titleBandTenths,
        leftTenths := 10 * leftPosition }
    .ok { dims := d, titleOps := titleOps, imageOps := imageOps }

/-! ## Framer (`01_input_framed/framer.ts` and its `settings.ts`) -/

/-- The `FrameSettings` record of `01_input_framed/settings.ts` (shadow
opacity is 10ths-scaled, the source literal 0.3 is 3; the home-indicator
opacity literal 0.8 is 8). -/
structure FrameSettings where
  imageBorderRadius : ℕ
  frameBorderRadius : ℕ
  edgeMargin : Option ℕ
  framePaddingHorizontal : ℕ
  framePaddingVertical : ℕ
  screenshotOffsetTop : ℕ
  screenshotOffsetLeft : ℕ
  homeIndicatorWidth : ℕ
  homeIndicatorHeight : ℕ
  homeIndicatorBorderRadius : ℕ
  homeIndicatorOpacityTenths : ℕ
  shadowDx : ℤ
  shadowDy : ℤ
  shadowStdDeviation : ℕ
  shadowOpacityTenths : ℕ
deriving DecidableEq, Repr

/-- The `defaultFrameSettings` constant of `01_input_framed/settings.ts`. -/
def defaultFrameSettings : FrameSettings :=
  { imageBorderRadius := 110, frameBorderRadius := 140, edgeMargin := some 30,
    framePaddingHorizontal := 90, framePaddingVertical := 90,
    screenshotOffsetTop := 40, screenshotOffsetLeft := 40,
    homeIndicatorWidth := 200, homeIndicatorHeight := 6,
    homeIndicatorBorderRadius := 3, homeIndicatorOpacityTenths := 8,
    shadowDx := 0, shadowDy := 4, shadowStdDeviation := 8, shadowOpacityTenths := 3 }

/-- The margin resolution shared by `createDeviceBackground` and
`createDeviceBezels`: `edgeMargin` when it is a number, else the left
screenshot offset. -/
def resolveMargin (s : FrameSettings) : ℕ :=
  match s.edgeMargin with
  | some m => m
  | none => s.screenshotOffsetLeft

/-- The frame canvas of `createDeviceBackground`:
`(screenshotWidth + margin·2, screenshotHeight + margin·2)`. -/
def createDeviceBackgroundDims (screenshotWidth screenshotHeight : ℕ) (s : FrameSettings) :
    ℕ × ℕ :=
  (screenshotWidth + resolveMargin s * 2, screenshotHeight + resolveMargin s * 2)

/-- The frame canvas of `createDeviceBezels` (same formula). -/
def createDeviceBezelsDims (screenshotWidth screenshotHeight : ℕ) (s : FrameSettings) :
    ℕ × ℕ :=
  (screenshotWidth + resolveMargin s * 2, screenshotHeight + resolveMargin s * 2)

/-- The screenshot placement offset `getScreenshotOffset`: `edgeMargin`
when set, else the top or left offset as requested. -/
def getScreenshotOffset (s : FrameSettings) (isTop : Bool) : ℕ :=
  match s.edgeMargin with
  | some m => m
  | none => if isTop then s.screenshotOffsetTop else s.screenshotOffsetLeft

/-- The output canvas of `frameScreenshot`: compositing the rounded
screenshot and the bezel layer onto the background buffer keeps the
background's dimensions. -/
def frameScreenshotCanvas (screenshotWidth screenshotHeight : ℕ) (s : FrameSettings) :
    ℕ × ℕ :=
  createDeviceBackgroundDims screenshotWidth screenshotHeight s

/-! ## Splitter (`03_splitter/splitter.ts`) -/

/-- A `sharp.extract` region, in pixels. -/
structure Extract where
  left : ℕ
  top : ℕ
  width : ℕ
  height : ℕ
deriving DecidableEq, Repr

/-- One target store resolution, from `DEFAULT_DEVICE_CONFIGS`. -/
structure DeviceConfig where
  name : String
  width : ℕ
  height : ℕ
  outputPath : String
deriving DecidableEq, Repr

/-- The device-config catalog `DEFAULT_DEVICE_CONFIGS` of `splitter.ts`
(the 6.7-inch entry is commented out in the source). -/
def DEFAULT_DEVICE_CONFIGS : List DeviceConfig :=
  [ { name := "iphone 6.5 inch", width := 1242, height := 2688,
      outputPath := "iphone 6.5 inch (1242x2688)" },
    { name := "iphone 6.9 inch", width := 1320, height := 2868,
      outputPath := "iphone 6.9 inch (1320x2868)" },
    { name := "ipad 13 inch", width := 2752, height := 2064,
      outputPath := "ipad 13 inch (2752x2064)" } ]

/-- Geometry produced by `processDeviceConfig` for one device config:
the resize dimensions, the optional bottom crop, and the four slot
extractions. -/
structure SplitPlan where
  resizedWidth : ℕ
  resizedHeight : ℕ
  cropRect : Option Extract
  finalHeight : ℕ
  slots : List Extract
deriving DecidableEq, Repr

/-- Embedding of `processDeviceConfig`: resize the combined image to width
`targetWidth * 4` keeping the aspect ratio
(`resizedHeight = Math.round (resizedWidth × metaH / metaW)`), crop any
excess height from the bottom only (`extract` keeps `top = 0`), then cut
four strips of width `targetWidth` at lefts `0, T, 2T, 3T`. -/
def processDeviceConfig (metaW metaH targetWidth targetHeight : ℕ) : SplitPlan :=
  let resizedWidth := targetWidth * 4
  let resizedHeight := jsRoundFrac (resizedWidth * metaH) metaW
  let cropRect : Option Extract :=
    if targetHeight < resizedHeight then
      some { left := 0, top := 0, width := resizedWidth, height := targetHeight }
    else none
  let finalHeight := if targetHeight < resizedHeight then targetHeight else resizedHeight
  { resizedWidth := resizedWidth
    resizedHeight := resizedHeight
    cropRect := cropRect
    finalHeight := finalHeight
    slots := (List.range 4).map fun i =>
      { left := i * targetWidth, top := 0, width := targetWidth, height := finalHeight } }

/-- Embedding of the metadata validation at the top of `splitScreenshots`:
`!metadata.width || !metadata.height` (missing or zero is falsy) throws,
then either dimension below 1000 throws. -/
def validateCombined (w h : Option ℕ) : Except String (ℕ × ℕ) :=
  match w, h with
  | some w', some h' =>
    if w' = 0 ∨ h' = 0 then
      .error "Invalid combined image: missing width or height metadata"
    else if w' < 1000 ∨ h' < 1000 then
      .error "Combined image too small. Expected at least 1000x1000."
    else .ok (w', h')
  | _, _ => .error "Invalid combined image: missing width or height metadata"

/-- Embedding of `splitScreenshots` for one (device type, locale) unit:
the metadata check runs first; only when it passes is every (already
device-filtered) config processed, so an error yields no slot plans. -/
def splitScreenshots (w h : Option ℕ) (configs : List DeviceConfig) :
    Except String (List SplitPlan) :=
  match validateCombined w h with
  | .error e => .error e
  | .ok (w', h') => .ok (configs.map fun c => processDeviceConfig w' h' c.width c.height)

/-! ## Batch scheduler (the shared `main` pattern of the three stages) -/

/-- The chunking of the stage `main` loops
(`for (let i = 0; i < items.length; i += BATCH_SIZE)` with
`items.slice(i, i + BATCH_SIZE)`), for a positive batch size. -/
def chunksOf {α : Type} (batchSize : ℕ) (l : List α) : List (List α) :=
  match l with
  | [] => []
  | x :: xs => (x :: xs.take (batchSize - 1)) :: chunksOf batchSize (xs.drop (batchSize - 1))
termination_by l.length
decreasing_by
  simp only [List.length_drop, List.length_cons]
  omega

/-- The per-chunk tallying of the stage `main` loops: every item of a
chunk is dispatched, its failure is caught at the item boundary
(`try`/`catch` inside the `map`), and after the chunk settles the
successes and failures are counted.  Returns `(processed, failed)`. -/
def processBatches {α ε β : Type} (step : α → Except ε β) (batchSize : ℕ)
    (items : List α) : ℕ × ℕ :=
  (chunksOf batchSize items).foldl
    (fun acc batch =>
      batch.foldl
        (fun acc2 a =>
          match step a with
          | .ok _ => (acc2.1 + 1, acc2.2)
          | .error _ => (acc2.1, acc2.2 + 1))
        acc)
    (0, 0)

/-- Exit status of the combiner `main` (all-locales path,
`COMBINER_BATCH_SIZE = 12`): `process.exit(1)` when any locale failed,
else a normal exit. -/
def combinerMainExit {α ε β : Type} (step : α → Except ε β) (locales : List α) : ℕ :=
  if 0 < (processBatches step 12 locales).2 then 1 else 0

/-- Exit status of the splitter `main` (all-locales path,
`SPLITTER_BATCH_SIZE = 16`). -/
def splitterMainExit {α ε β : Type} (step : α → Except ε β) (locales : List α) : ℕ :=
  if 0 < (processBatches step 16 locales).2 then 1 else 0

/-- Exit status of the framer `main` (scan-all path,
`FRAMER_BATCH_SIZE = 32`): the failure count is logged when positive but
the process then falls through to a normal exit in both branches. -/
def framerMainExit {α ε β : Type} (step : α → Except ε β) (files : List α) : ℕ :=
  if 0 < (processBatches step 32 files).2 then 0 else 0

/-! ## Concrete instances used by the witnesses and counterexamples -/

/-- Metadata of two framed screenshots (fewer than the four slots). -/
def c1Metas : List (ℕ × ℕ) := [(1230, 2592), (1230, 2592)]

/-- Four identical 100×200 framed images (scaling disabled, so scaled and
original dimensions agree). -/
def c3Imgs : List ImgDims :=
  List.replicate 4 { width := 100, height := 200,
                     originalWidth := some 100, originalHeight := some 200 }

/-- Metadata of the four framed images of the default pipeline
(1170×2532 screenshots framed with `edgeMargin = 30`). -/
def c2Metas : List (ℕ × ℕ) :=
  [(1230, 2592), (1230, 2592), (1230, 2592), (1230, 2592)]

/-- The plan computed by `combineScreenshots` on `c2Metas` with the
default settings of `02_input_combined/settings.ts` (scale factors set to
1 so that the framed images are used unscaled). -/
def c2Plan : CombinePlan :=
  match combineScreenshots c2Metas 2580 1398 50 DeviceType.iphone [] 130 1 100 true
      100 100 with
  | .ok p => p
  | .error _ => { dims := ⟨0, 0, 0, 0, 0⟩, titleOps := [], imageOps := [] }

/-- A translation lookup with only `slot_1` and `slot_3` populated, as in
the spec's `fr` scenario. -/
def frTranslations : String → Option String := fun k =>
  if k = "slot_1" then some "Un" else if k = "slot_3" then some "Trois" else none

/-- A translation lookup whose `slot_2` is present but maps to the empty
string. -/
def c10Translations : String → Option String := fun k =>
  if k = "slot_2" then some "" else some "Title"

/-- The default frame settings with the uniform edge margin removed, so
that the screenshot offsets drive the frame size. -/
def noEdgeMarginSettings : FrameSettings :=
  { defaultFrameSettings with edgeMargin := none }

/-- A batch step that fails on item 2 and succeeds everywhere else. -/
def c4Step : ℕ → Except String ℕ := fun n => if n = 2 then .error "boom" else .ok n

/-- A title consisting of five ampersands — XML escaping quintuples its
length. -/
def ampText : List Char := ['&', '&', '&', '&', '&']

/-- A four-word title that word-wraps at 10 characters per line. -/
def wrapText : List Char :=
  ['P', 'l', 'a', 'n', ' ', 'M', 'e', 'a', 'l', 's', ' ', 'i', 'n', ' ',
   'S', 'e', 'c', 'o', 'n', 'd', 's']

/-! ## Helper lemmas -/

/-- The `Screenshot n` placeholders are never the empty string. -/
theorem screenshot_placeholder_ne (n : ℕ) : ("Screenshot " ++ toString n) ≠ "" := by
  intro h
  have hl := congrArg String.length h
  rw [String.length_append] at hl
  have h11 : ("Screenshot " : String).length = 11 := by decide
  have h0 : ("" : String).length = 0 := by decide
  omega

/-! ## Claim theorems -/

/-- Claim C1 (amended): `combineScreenshots` raises its hard error exactly
when zero framed screenshots were resolved for the (deviceType, locale);
with any nonzero number found — including fewer than 4 — it proceeds and
produces a composite. -/
theorem combineScreenshots_error_iff_empty
    (metas : List (ℕ × ℕ)) (bgWidth bgHeight spacing : ℕ) (deviceType : DeviceType)
    (titles : List (List Char)) (titleFontSize : ℕ) (titleShadowOffset : ℤ)
    (titleSpacing : ℕ) (centerInQuarters : Bool) (sf1 sf2 : ℕ) :
    exceptOk (combineScreenshots metas bgWidth bgHeight spacing deviceType titles
        titleFontSize titleShadowOffset titleSpacing centerInQuarters sf1 sf2) = false
      ↔ metas = [] := by
  cases metas <;> simp [combineScreenshots, exceptOk]

/-- Claim C1 counterexample: with only two framed screenshots resolved
(fewer than the four the claim requires), `combineScreenshots` does not
error — it succeeds and composites the two found images. -/
theorem combineScreenshots_two_images_counterexample :
    c1Metas.length < 4 ∧
    exceptOk (combineScreenshots c1Metas 2580 1398 50 DeviceType.iphone [] 130 1 100
        true 90 86) = true := by
  decide

/-- Claim C3 (amended): the quarter width of `calculateCanvasDimensions`
with the 4 slot images is `Math.floor (canvasWidth / 4)`; it is the exact
quarter of the canvas width only when 4 divides that width. -/
theorem quarterWidth_floor_div
    (framedImages : List ImgDims) (spacing bgWidth bgHeight f t : ℕ) (cIQ sl : Bool)
    (h4 : framedImages.length = 4) :
    (calculateCanvasDimensions framedImages spacing bgWidth bgHeight f t cIQ sl).quarterWidth
        = (calculateCanvasDimensions framedImages spacing bgWidth bgHeight f t cIQ
            sl).canvasWidth / 4
      ∧ (4 ∣ (calculateCanvasDimensions framedImages spacing bgWidth bgHeight f t cIQ
            sl).canvasWidth →
          4 * (calculateCanvasDimensions framedImages spacing bgWidth bgHeight f t cIQ
              sl).quarterWidth
            = (calculateCanvasDimensions framedImages spacing bgWidth bgHeight f t cIQ
                sl).canvasWidth) := by
  constructor
  · simp [calculateCanvasDimensions, h4]
  · intro hdvd
    simp only [calculateCanvasDimensions, h4] at hdvd ⊢
    exact Nat.mul_div_cancel' hdvd

/-- Claim C3 witness: the floor-division characterization instantiated at
four 100-wide images on a 4000-wide background. -/
theorem quarterWidth_floor_div_witness :
    (calculateCanvasDimensions c3Imgs 0 4000 1 130 100 true false).quarterWidth
      = (calculateCanvasDimensions c3Imgs 0 4000 1 130 100 true false).canvasWidth / 4 :=
  (quarterWidth_floor_div c3Imgs 0 4000 1 130 100 true false (by decide)).1

/-- Claim C3 counterexample: a 4001-wide background yields a 4001-wide
canvas whose stored quarter width (1000) is not exactly a quarter of it. -/
theorem quarterWidth_not_exact_counterexample :
    (calculateCanvasDimensions c3Imgs 0 4001 1 130 100 true false).canvasWidth = 4001 ∧
    4 * (calculateCanvasDimensions c3Imgs 0 4001 1 130 100 true false).quarterWidth
      ≠ (calculateCanvasDimensions c3Imgs 0 4001 1 130 100 true false).canvasWidth := by
  decide

/-- Claim C5: for a composite at least 1000 wide, the splitter resizes to
width exactly `4 × targetWidth` and extracts four slots of width
`targetWidth` at lefts `0, T, 2T, 3T` — widths summing to `4T`, adjacent
and within the resized image — and any crop keeps the top edge. -/
theorem processDeviceConfig_slots (metaW metaH targetWidth targetHeight : ℕ)
    (_hW : 1000 ≤ metaW) :
    (processDeviceConfig metaW metaH targetWidth targetHeight).resizedWidth
        = 4 * targetWidth
      ∧ ((processDeviceConfig metaW metaH targetWidth targetHeight).slots.map
            Extract.left)
          = [0, targetWidth, 2 * targetWidth, 3 * targetWidth]
      ∧ (∀ e ∈ (processDeviceConfig metaW metaH targetWidth targetHeight).slots,
          e.width = targetWidth ∧
            e.left + e.width
              ≤ (processDeviceConfig metaW metaH targetWidth targetHeight).resizedWidth)
      ∧ ((processDeviceConfig metaW metaH targetWidth targetHeight).slots.map
            Extract.width).sum = 4 * targetWidth
      ∧ (∀ r, (processDeviceConfig metaW metaH targetWidth targetHeight).cropRect
            = some r → r.top = 0) := by
  have hr : List.range 4 = [0, 1, 2, 3] := rfl
  refine ⟨by simp [processDeviceConfig]; try omega, ?_, ?_, ?_, ?_⟩
  · simp [processDeviceConfig, hr]
    try omega
  · intro e he
    simp [processDeviceConfig, hr] at he
    rcases he with rfl | rfl | rfl | rfl <;> simp [processDeviceConfig] <;> omega
  · simp [processDeviceConfig, hr]
    try omega
  · intro r hrr
    simp only [processDeviceConfig] at hrr
    by_cases hc : targetHeight < jsRoundFrac (targetWidth * 4 * metaH) metaW
    · simp only [if_pos hc, Option.some.injEq] at hrr
      subst hrr
      rfl
    · simp [if_neg hc] at hrr

/-- Claim C5 witness: the geometry instantiated at the spec's scenario, a
5000×9000 composite split for the 1242×2688 device config. -/
theorem processDeviceConfig_slots_witness :
    1000 ≤ 5000 ∧
    (processDeviceConfig 5000 9000 1242 2688).resizedWidth = 4 * 1242 ∧
    ((processDeviceConfig 5000 9000 1242 2688).slots.map Extract.left)
      = [0, 1242, 2 * 1242, 3 * 1242] :=
  ⟨by decide, (processDeviceConfig_slots 5000 9000 1242 2688 (by decide)).1,
    (processDeviceConfig_slots 5000 9000 1242 2688 (by decide)).2.1⟩

/-- Claim C6: the framer's output canvas is the screenshot grown by twice
the resolved margin on each axis — `edgeMargin` when set, else the left
screenshot offset — and a 1170×2532 screenshot framed with the default
settings (`edgeMargin = 30`) yields a 1230×2592 canvas. -/
theorem frameScreenshotCanvas_margin (w h m : ℕ) (s1 s2 : FrameSettings)
    (h1 : s1.edgeMargin = some m) (h2 : s2.edgeMargin = none) :
    frameScreenshotCanvas w h s1 = (w + 2 * m, h + 2 * m) ∧
    frameScreenshotCanvas w h s2
      = (w + 2 * s2.screenshotOffsetLeft, h + 2 * s2.screenshotOffsetLeft) ∧
    frameScreenshotCanvas 1170 2532 defaultFrameSettings = (1230, 2592) := by
  refine ⟨?_, ?_, by decide⟩ <;>
    simp only [frameScreenshotCanvas, createDeviceBackgroundDims, resolveMargin, h1, h2,
      Prod.mk.injEq] <;>
    omega

/-- Claim C6 witness: the margin law instantiated at the 1170×2532
scenario with the default settings and with the offset fallback. -/
theorem frameScreenshotCanvas_margin_witness :
    frameScreenshotCanvas 1170 2532 defaultFrameSettings
      = (1170 + 2 * 30, 2532 + 2 * 30) ∧
    frameScreenshotCanvas 1170 2532 noEdgeMarginSettings
      = (1170 + 2 * noEdgeMarginSettings.screenshotOffsetLeft,
         2532 + 2 * noEdgeMarginSettings.screenshotOffsetLeft) :=
  ⟨(frameScreenshotCanvas_margin 1170 2532 30 defaultFrameSettings noEdgeMarginSettings
      rfl rfl).1,
   (frameScreenshotCanvas_margin 1170 2532 30 defaultFrameSettings noEdgeMarginSettings
      rfl rfl).2.1⟩

/-- Claim C8: `splitScreenshots` succeeds exactly when both combined-image
dimensions are present and at least 1000; missing metadata on either axis
is rejected, and any rejection produces no slot plans. -/
theorem splitScreenshots_min_size (w h : ℕ) (ow oh : Option ℕ)
    (configs : List DeviceConfig) :
    (exceptOk (splitScreenshots (some w) (some h) configs) = true
        ↔ 1000 ≤ w ∧ 1000 ≤ h) ∧
    exceptOk (splitScreenshots none oh configs) = false ∧
    exceptOk (splitScreenshots ow none configs) = false := by
  refine ⟨?_, ?_, ?_⟩
  · simp only [splitScreenshots, validateCombined]
    split_ifs with h0 hsmall <;> simp [exceptOk] <;> omega
  · cases oh <;> rfl
  · cases ow <;> rfl

/-- Claim C9: `loadTitles` always returns exactly 4 titles in slot order —
a populated `slot_n` yields its string, an unpopulated one yields the
`Screenshot n` placeholder, and a missing or unparseable translation file
yields the four placeholders without throwing. -/
theorem loadTitles_slots
    (parsed : Option (String → Option String)) (tr : String → Option String)
    (i j : ℕ) (s : String)
    (hi : i < 4) (hs : tr ("slot_" ++ toString (i + 1)) = some s) (hne : s ≠ "")
    (hj : j < 4) (hmiss : tr ("slot_" ++ toString (j + 1)) = none) :
    (loadTitles parsed).length = 4 ∧
    (loadTitles (some tr)).get? i = some s ∧
    (loadTitles (some tr)).get? j = some ("Screenshot " ++ toString (j + 1)) ∧
    loadTitles none = ["Screenshot 1", "Screenshot 2", "Screenshot 3", "Screenshot 4"] := by
  have hr : List.range 4 = [0, 1, 2, 3] := rfl
  refine ⟨?_, ?_, ?_, rfl⟩
  · cases parsed <;> simp [loadTitles]
  · simp only [loadTitles, hr, List.map_cons, List.map_nil]
    interval_cases i <;> simp_all [slotTitle]
  · simp only [loadTitles, hr, List.map_cons, List.map_nil]
    interval_cases j <;> simp_all [slotTitle]

/-- Claim C9 witness: the `fr` scenario — only `slot_1` and `slot_3`
populated — yields `Un`, `Screenshot 2`, `Trois`, `Screenshot 4`. -/
theorem loadTitles_slots_witness :
    (loadTitles (some frTranslations)).length = 4 ∧
    (loadTitles (some frTranslations)).get? 0 = some "Un" ∧
    (loadTitles (some frTranslations)).get? 1 = some ("Screenshot " ++ toString (1 + 1)) ∧
    loadTitles none = ["Screenshot 1", "Screenshot 2", "Screenshot 3", "Screenshot 4"] :=
  loadTitles_slots (some frTranslations) frTranslations 0 1 "Un" (by decide) (by decide)
    (by decide) (by decide) (by decide)

/-- Claim C10: a `slot_n` entry that is present but empty (falsy) also
falls back to the placeholder, and consequently every title `loadTitles`
returns is non-empty. -/
theorem loadTitles_nonempty
    (parsed : Option (String → Option String)) (tr : String → Option String)
    (i : ℕ) (t : String)
    (hi : i < 4) (hempty : tr ("slot_" ++ toString (i + 1)) = some "")
    (hmem : t ∈ loadTitles parsed) :
    (loadTitles (some tr)).get? i = some ("Screenshot " ++ toString (i + 1)) ∧
    t ≠ "" := by
  have hr : List.range 4 = [0, 1, 2, 3] := rfl
  constructor
  · simp only [loadTitles, hr, List.map_cons, List.map_nil]
    interval_cases i <;> simp_all [slotTitle]
  · cases parsed with
    | none =>
      simp only [loadTitles, List.mem_cons, List.not_mem_nil, or_false] at hmem
      rcases hmem with rfl | rfl | rfl | rfl <;> decide
    | some tr' =>
      simp only [loadTitles] at hmem
      obtain ⟨k, hk, rfl⟩ := List.mem_map.1 hmem
      show slotTitle tr' (k + 1) ≠ ""
      unfold slotTitle
      rcases h' : tr' ("slot_" ++ toString (k + 1)) with _ | v
      · exact screenshot_placeholder_ne (k + 1)
      · by_cases hv : v = ""
        · simp only [hv, ne_eq, not_true_eq_false, ite_false]
          exact screenshot_placeholder_ne (k + 1)
        · simp [hv]

/-- Claim C10 witness: a lookup whose `slot_2` maps to the empty string
yields the `Screenshot 2` placeholder, and a returned title is non-empty. -/
theorem loadTitles_nonempty_witness :
    (loadTitles (some c10Translations)).get? 1
      = some ("Screenshot " ++ toString (1 + 1)) ∧
    ("Title" : String) ≠ "" :=
  loadTitles_nonempty (some c10Translations) c10Translations 1 "Title" (by decide)
    (by decide) (by decide)

/-- Flattening the stage `main` chunking recovers the original item list:
no item is dropped and none is duplicated by the batching. -/
theorem chunksOf_flatten {α : Type} (batchSize : ℕ) (l : List α) :
    (chunksOf batchSize l).flatten = l := by
  induction l using chunksOf.induct batchSize with
  | case1 => simp [chunksOf]
  | case2 x xs ih =>
    rw [chunksOf]
    simp only [List.flatten_cons, ih]
    rw [List.cons_append, List.take_append_drop]

/-- Folding chunk by chunk is folding over the whole item list. -/
theorem chunksOf_foldl {α β : Type} (f : β → α → β) (batchSize : ℕ) (l : List α)
    (init : β) :
    (chunksOf batchSize l).foldl (fun acc batch => batch.foldl f acc) init
      = l.foldl f init := by
  conv_rhs => rw [← chunksOf_flatten batchSize l]
  rw [List.foldl_flatten]

/-- The counting fold of the stage `main` loops, explicitly: successes and
failures are tallied over every item. -/
theorem foldl_count_ok {α ε β : Type} (step : α → Except ε β) (l : List α)
    (acc : ℕ × ℕ) :
    l.foldl
        (fun acc2 a =>
          match step a with
          | .ok _ => (acc2.1 + 1, acc2.2)
          | .error _ => (acc2.1, acc2.2 + 1))
        acc
      = (acc.1 + l.countP (fun a => exceptOk (step a)),
         acc.2 + l.countP (fun a => !exceptOk (step a))) := by
  induction l generalizing acc with
  | nil => simp
  | cons x xs ih =>
    simp only [List.foldl_cons, List.countP_cons]
    cases hstep : step x with
    | ok b =>
      rw [ih]
      simp [exceptOk, Prod.mk.injEq]
      try omega
    | error e =>
      rw [ih]
      simp [exceptOk, Prod.mk.injEq]
      try omega

/-- Claim C4 (amended): in every stage's batch run, a per-item failure
never cancels sibling items — every item is dispatched and tallied, with
successes plus failures covering the whole list — and the combiner and
splitter exit nonzero exactly when some item failed, but the framer merely
logs the failure count and exits zero even when items failed. -/
theorem batch_failure_isolation {α ε β : Type} (step : α → Except ε β)
    (batchSize : ℕ) (items : List α) :
    (processBatches step batchSize items).1
        = items.countP (fun a => exceptOk (step a))
      ∧ (processBatches step batchSize items).2
          = items.countP (fun a => !exceptOk (step a))
      ∧ (processBatches step batchSize items).1 + (processBatches step batchSize items).2
          = items.length
      ∧ (combinerMainExit step items = 0 ↔ ∀ a ∈ items, exceptOk (step a) = true)
      ∧ (splitterMainExit step items = 0 ↔ ∀ a ∈ items, exceptOk (step a) = true)
      ∧ framerMainExit step items = 0 := by
  have hcount : ∀ b : ℕ, processBatches step b items
      = (items.countP (fun a => exceptOk (step a)),
         items.countP (fun a => !exceptOk (step a))) := by
    intro b
    unfold processBatches
    rw [chunksOf_foldl, foldl_count_ok]
    simp
  have hsum : items.countP (fun a => exceptOk (step a))
      + items.countP (fun a => !exceptOk (step a)) = items.length := by
    clear hcount
    induction items with
    | nil => simp
    | cons x xs ih =>
      simp only [List.countP_cons, List.length_cons]
      cases hb : exceptOk (step x) <;> simp <;> omega
  refine ⟨by rw [hcount], by rw [hcount], by rw [hcount]; exact hsum, ?_, ?_, ?_⟩
  · unfold combinerMainExit
    rw [hcount]
    simp [List.countP_eq_zero]
  · unfold splitterMainExit
    rw [hcount]
    simp [List.countP_eq_zero]
  · unfold framerMainExit
    simp

/-- Claim C4 counterexample: with one failing item among three, the
framer's batch run ends with a zero (success) exit status even though the
failure count is nonzero. -/
theorem framer_exit_zero_counterexample :
    0 < (processBatches c4Step 32 [1, 2, 3]).2 ∧ framerMainExit c4Step [1, 2, 3] = 0 := by
  have h : processBatches c4Step 32 [1, 2, 3] = (2, 1) := by
    rw [processBatches, chunksOf.eq_def]
    norm_num [chunksOf.eq_def, c4Step]
  exact ⟨by rw [h]; decide, by unfold framerMainExit; rw [h]; decide⟩

/-- JavaScript `split(' ')` never returns an empty array. -/
theorem splitSp_ne_nil (l : List Char) : splitSp l ≠ [] := by
  cases l with
  | nil => simp [splitSp]
  | cons c rest =>
    rw [splitSp]
    rcases h : splitSp rest with _ | ⟨w, ws⟩
    · simp
    · by_cases hc : c = ' ' <;> simp [hc]

/-- Joining a word list headed by `w` prepends `w` and a space when more
words follow. -/
theorem joinSp_cons_ne (w : List Char) (t : List (List Char)) (h : t ≠ []) :
    joinSp (w :: t) = w ++ ' ' :: joinSp t := by
  rcases t with _ | ⟨v, ts⟩
  · exact absurd rfl h
  · rfl

/-- `join(' ')` inverts `split(' ')`, exactly as in JavaScript. -/
theorem joinSp_splitSp (l : List Char) : joinSp (splitSp l) = l := by
  induction l with
  | nil => rfl
  | cons c rest ih =>
    rw [splitSp]
    rcases h : splitSp rest with _ | ⟨w, ws⟩
    · exact absurd h (splitSp_ne_nil rest)
    · rw [h] at ih
      show joinSp (if c = ' ' then [] :: w :: ws else (c :: w) :: ws) = c :: rest
      by_cases hc : c = ' '
      · subst hc
        rw [if_pos rfl, joinSp_cons_ne _ _ (by simp), List.nil_append, ih]
      · rw [if_neg hc]
        rcases ws with _ | ⟨v, ws'⟩
        · simpa [joinSp] using congrArg (c :: ·) ih
        · rw [joinSp_cons_ne _ _ (by simp)] at ih ⊢
          rw [List.cons_append, ih]

/-- Splitting a word list anywhere strictly inside and rejoining the two
halves with a single space reproduces the join of the whole list. -/
theorem joinSp_take_drop (ws : List (List Char)) (k : ℕ) (hk : 0 < k)
    (hlt : k < ws.length) :
    joinSp (ws.take k) ++ ' ' :: joinSp (ws.drop k) = joinSp ws := by
  induction ws generalizing k with
  | nil => simp at hlt
  | cons w rest ih =>
    match k, hk with
    | 1, _ =>
      have hr : rest ≠ [] := by
        intro hre
        subst hre
        simp at hlt
      rw [joinSp_cons_ne w rest hr]
      simp [joinSp]
    | (k' + 2), _ =>
      have hlt' : k' + 1 < rest.length := by
        simp only [List.length_cons] at hlt
        omega
      have hrt : rest.take (k' + 1) ≠ [] := by
        intro hre
        rcases List.take_eq_nil_iff.mp hre with h0 | h0
        · omega
        · subst h0
          simp at hlt'
      have hr : rest ≠ [] := by
        intro hre
        subst hre
        simp at hlt'
      rw [List.take_succ_cons, List.drop_succ_cons,
        joinSp_cons_ne _ _ hrt, joinSp_cons_ne _ _ hr]
      simp only [List.cons_append, List.append_assoc]
      rw [ih (k' + 1) (Nat.succ_pos _) hlt']

/-- XML escaping never shortens a text (each character maps to one or more
characters). -/
theorem escapeXml_length_ge (l : List Char) : l.length ≤ (escapeXml l).length := by
  induction l with
  | nil => simp [escapeXml]
  | cons c rest ih =>
    rw [escapeXml]
    by_cases h1 : c = '&' <;> by_cases h2 : c = '<' <;> by_cases h3 : c = '>' <;>
      simp [h1, h2, h3] <;> omega

/-- The word-wrap of `generateTitleSvg` never loses or reorders
characters: either no split happened and line 1 is the whole escaped text
with an empty line 2, or line 1, a single space, and line 2 concatenate
back to the escaped text (so in particular the word sequence is
preserved). -/
theorem wordWrapLines_join (e : List Char) (m : ℕ) :
    ((wordWrapLines e m).1 = e ∧ (wordWrapLines e m).2 = []) ∨
      (wordWrapLines e m).1 ++ ' ' :: (wordWrapLines e m).2 = e := by
  unfold wordWrapLines
  split_ifs with h1 h2
  · right
    simp only
    rw [joinSp_take_drop (splitSp e) (greedyBreakIndex m (splitSp e) [] 0) h2.1 h2.2,
      joinSp_splitSp]
  · left
    exact ⟨rfl, rfl⟩
  · left
    exact ⟨rfl, rfl⟩

/-- Line 1 of the word-wrap is never longer than the escaped text. -/
theorem wordWrapLines_fst_le (e : List Char) (m : ℕ) :
    (wordWrapLines e m).1.length ≤ e.length := by
  rcases wordWrapLines_join e m with ⟨h1, _⟩ | h
  · rw [h1]
  · have := congrArg List.length h
    simp at this
    omega

/-- Without a manual line break and with a 2-line budget,
`generateTitleSvgLines` is exactly the word-wrap of the escaped text. -/
theorem generateTitleSvgLines_no_manual (text : List Char) (m : ℕ)
    (hmanual : ((splitBreaks text).filter fun w => w ≠ []).length ≤ 1) :
    generateTitleSvgLines text m 2 = wordWrapLines (escapeXml text) m := by
  unfold generateTitleSvgLines
  rcases hmp : (splitBreaks text).filter fun w => w ≠ [] with _ | ⟨m0, _ | ⟨m1, ms⟩⟩ <;>
    rw [hmp] at hmanual ⊢ <;> simp_all

/-- Claim C7 (amended): with no manual line break, `maxLines = 2`, and
text longer than `maxCharsPerLine`, the wrap never drops words — either no
split happened and line 1 is the whole XML-escaped text with line 2 empty,
or line 1, one space, and line 2 concatenate to exactly the escaped text —
and line 1 is never longer than the XML-escaped text (though it can exceed
the original, pre-escaping, text). -/
theorem generateTitleSvgLines_word_preserving (text : List Char) (maxChars : ℕ)
    (hmanual : ((splitBreaks text).filter fun w => w ≠ []).length ≤ 1)
    (_hlen : maxChars < text.length) :
    (((generateTitleSvgLines text maxChars 2).1 = escapeXml text ∧
        (generateTitleSvgLines text maxChars 2).2 = []) ∨
      (generateTitleSvgLines text maxChars 2).1 ++ ' ' ::
          (generateTitleSvgLines text maxChars 2).2 = escapeXml text) ∧
    (generateTitleSvgLines text maxChars 2).1.length ≤ (escapeXml text).length := by
  rw [generateTitleSvgLines_no_manual text maxChars hmanual]
  exact ⟨wordWrapLines_join (escapeXml text) maxChars,
    wordWrapLines_fst_le (escapeXml text) maxChars⟩

/-- Claim C7 witness: the preservation law instantiated at a four-word
title wrapped at 10 characters. -/
theorem generateTitleSvgLines_word_preserving_witness :
    (((generateTitleSvgLines wrapText 10 2).1 = escapeXml wrapText ∧
        (generateTitleSvgLines wrapText 10 2).2 = []) ∨
      (generateTitleSvgLines wrapText 10 2).1 ++ ' ' ::
          (generateTitleSvgLines wrapText 10 2).2 = escapeXml wrapText) ∧
    (generateTitleSvgLines wrapText 10 2).1.length ≤ (escapeXml wrapText).length :=
  generateTitleSvgLines_word_preserving wrapText 10 (by decide) (by decide)

/-- Claim C7 counterexample: a five-ampersand title with
`maxCharsPerLine = 4`, no manual break, and `maxLines = 2` satisfies the
claim's premises, yet the returned line 1 (25 characters of escaped
entities) is longer than the 5-character original text. -/
theorem generateTitleSvgLines_longer_counterexample :
    ((splitBreaks ampText).filter fun w => w ≠ []).length ≤ 1 ∧
    4 < ampText.length ∧
    ampText.length < (generateTitleSvgLines ampText 4 2).1.length := by
  decide

/-- The positioning band of `combineScreenshots` never exceeds the band
reserved by `calculateCanvasDimensions` (so images land inside the
reserved strip, just higher than the claim's shared-value reading
predicts). -/
theorem positioning_le_canvas (f t : ℕ) (s : Bool) :
    positioningTitleBandTenths f t s ≤ 10 * canvasTitleBand f t s := by
  unfold positioningTitleBandTenths canvasTitleBand natCeilDiv
  cases s <;> simp only [if_true, if_false] <;> omega

/-- Claim C2 (amended): when `combineScreenshots` succeeds, the canvas
height reserves `ceil (fontSize × 1.2 × lines + 2 × pad) + titleSpacing`
with `pad = ceil (fontSize × 0.2) + 1` (a constant 1, not
`|titleShadowOffset|`), while the image layers are placed at
`top = spacing + (fontSize × 1.2 × lines + titleSpacing)` — a smaller band
that omits the padding; the positioning band never exceeds the reserved
band, and the claim's pad formula matches the canvas computation exactly
when `|titleShadowOffset| = 1`. -/
theorem combiner_title_band (metas : List (ℕ × ℕ)) (bgWidth bgHeight spacing : ℕ)
    (deviceType : DeviceType) (titles : List (List Char)) (f : ℕ) (sh : ℤ) (t : ℕ)
    (cIQ : Bool) (sf1 sf2 : ℕ) (p : CombinePlan)
    (hsh : sh.natAbs = 1)
    (hp : combineScreenshots metas bgWidth bgHeight spacing deviceType titles f sh t
        cIQ sf1 sf2 = .ok p) :
    (∀ op ∈ p.imageOps,
        op.topTenths
          = 10 * spacing + positioningTitleBandTenths f t (singleLineFor deviceType)) ∧
    p.dims.canvasHeight
      = max bgHeight (p.dims.imageHeight
          + canvasTitleBand f t (singleLineFor deviceType) + spacing * 2) ∧
    positioningTitleBandTenths f t (singleLineFor deviceType)
      ≤ 10 * canvasTitleBand f t (singleLineFor deviceType) ∧
    claimTitleBand f t sh (singleLineFor deviceType)
      = canvasTitleBand f t (singleLineFor deviceType) := by
  cases metas with
  | nil => simp [combineScreenshots] at hp
  | cons m ms =>
    simp only [combineScreenshots, List.length_cons, Nat.succ_ne_zero, if_false,
      Except.ok.injEq] at hp
    subst hp
    refine ⟨?_, ?_, positioning_le_canvas f t (singleLineFor deviceType), ?_⟩
    · intro op hop
      simp only [List.mem_map] at hop
      obtain ⟨pair, hmem, rfl⟩ := hop
      simp
    · simp [calculateCanvasDimensions]
    · unfold claimTitleBand canvasTitleBand
      rw [hsh]

/-- Claim C2 witness: the amended band law instantiated at the default
settings (font size 130, title spacing 100, shadow offset 1, iPhone) with
the four default framed images. -/
theorem combiner_title_band_witness :
    (∀ op ∈ c2Plan.imageOps,
        op.topTenths
          = 10 * 50 + positioningTitleBandTenths 130 100 (singleLineFor DeviceType.iphone)) ∧
    c2Plan.dims.canvasHeight
      = max 1398 (c2Plan.dims.imageHeight
          + canvasTitleBand 130 100 (singleLineFor DeviceType.iphone) + 50 * 2) ∧
    positioningTitleBandTenths 130 100 (singleLineFor DeviceType.iphone)
      ≤ 10 * canvasTitleBand 130 100 (singleLineFor DeviceType.iphone) ∧
    claimTitleBand 130 100 1 (singleLineFor DeviceType.iphone)
      = canvasTitleBand 130 100 (singleLineFor DeviceType.iphone) :=
  combiner_title_band c2Metas 2580 1398 50 DeviceType.iphone [] 130 1 100 true 100 100
    c2Plan (by decide) rfl

/-- Claim C2 counterexample: at the default settings the claimed band
(466, which does equal the canvas computation since the default shadow
offset is 1) is not the value used to position the image layers — they are
placed at top 462 px (`50 + 412`), not `50 + 466`. -/
theorem combiner_title_band_counterexample :
    positioningTitleBandTenths 130 100 false = 4120 ∧
    canvasTitleBand 130 100 false = 466 ∧
    claimTitleBand 130 100 1 false = 466 ∧
    (∀ op ∈ c2Plan.imageOps, op.topTenths = 4620) ∧
    (4620 : ℤ) ≠ 10 * (50 + 466) := by
  decide
